import Mathlib

/-!
Verification development for the TerrierUtil LLM FastAPI shim
(`src/terrierutil/llm/fastapi/main.py`).

The shim exposes two routes, `POST /generate` and `GET /about`, over a
process-wide application object whose `package` slot holds the
(model, tokenizer) pair loaded once at startup.  The embedding below
translates `main.py` directly; the sibling modules that `main.py` imports
(`schema.py`, `predict.py`, `config.py`, `exception_handler.py`,
`build.py`) are not part of the available sources, so their behaviour is
modelled from the specification, each with a doc comment saying so.
-/

namespace TerrierUtil

/-- JSON-like values carried by request and response fields. -/
inductive JsonValue where
  | null
  | boolean (b : Bool)
  | num (q : ℚ)
  | str (s : String)
  | obj (fields : List (String × JsonValue))
deriving Repr

/-- The raw body of a `POST /generate` request before validation:
each declared field is either absent or bound to some JSON value. -/
structure RawRequest where
  prompt : Option JsonValue
  generation_params : Option JsonValue
deriving Repr

/-- Modelled from the spec: `schema.py` (imported by `main.py` via
`from terrierutil.llm.fastapi.schema import *`) is not among the sources.
Per §4.4/§6, a validated inference request is
`{prompt: string, generation_params: object}`. -/
structure InferenceInput where
  prompt : String
  generation_params : List (String × JsonValue)
deriving Repr

/-- Validation failures recognised by the schema layer. -/
inductive ValidationError where
  | missingField (name : String)
  | typeMismatch (name : String)
deriving Repr, DecidableEq

/-- Failures that surface inside the route handler `do_predict`:
either the `app.package` attribute is absent (request served before the
startup hook stored it) or the external inference runtime failed. -/
inductive ServerError where
  | attributeError (name : String)
  | runtimeFailure (msg : String)
deriving Repr, DecidableEq

/-- Modelled from the spec: `schema.py` is not among the sources.  Per
§4.4, validation runs before the inference function and rejects any
required-field-missing or type-mismatch condition: `prompt` must be a
string, `generation_params` an object. -/
def validateInferenceInput (raw : RawRequest) : Except ValidationError InferenceInput :=
  match raw.prompt with
  | none => .error (.missingField "prompt")
  | some (.str s) =>
    match raw.generation_params with
    | none => .error (.missingField "generation_params")
    | some (.obj fields) => .ok { prompt := s, generation_params := fields }
    | some _ => .error (.typeMismatch "generation_params")
  | some _ => .error (.typeMismatch "prompt")

/-- The opaque (model, tokenizer) pair produced by the model loader and
stored by `startup_event` in `app.package`.  Its contents are external
runtime objects, opaque to the shim; we represent them by identifiers. -/
structure Package where
  model : ℕ
  tokenizer : ℕ
deriving Repr, DecidableEq

/-- Process-wide application state: `app.package` is set by the startup
hook; before that the attribute does not exist (`none`). -/
structure AppState where
  package : Option Package
deriving Repr, DecidableEq

/-- The application state right after module import, before the startup
hook has run: no `package` attribute. -/
def appStateInit : AppState := { package := none }

/-- Modelled from the spec: `predict.py` is not among the sources.  Per
§4.3, `predict(model_state, prompts, generation_params)` either returns
`(texts, scores)` or lets a failure inside the underlying generation
procedure propagate to the caller.  The external runtime is therefore a
function into this outcome type. -/
inductive PredictOutcome where
  | ok (texts : List String) (scores : List ℚ)
  | failure (msg : String)
deriving Repr

/-- The type of the external inference runtime backing `predict`. -/
def Runtime : Type :=
  Package → List String → List (String × JsonValue) → PredictOutcome

/-- Modelled from the spec: `config.py` is not among the sources.  Per
§4.1/§6, `CONFIG` resolves at least an environment tag, a device, a model
path and the decimal rounding precision `ROUND_DIGIT`. -/
structure Config where
  ENV : String
  DEVICE : String
  MODEL_NAME_OR_PATH : String
  ROUND_DIGIT : ℕ
deriving Repr

/-- Round a rational to the nearest integer, ties to the even integer —
the rounding mode of `np.around` (`main.py` line 87). -/
def roundHalfEven (q : ℚ) : ℤ :=
  let f : ℤ := ⌊q⌋
  let r : ℚ := q - f
  if r < 1 / 2 then f
  else if 1 / 2 < r then f + 1
  else if f % 2 = 0 then f else f + 1

/-- `np.around(x, decimals := d)`: round to `d` decimal digits,
ties to even. -/
def npAround (d : ℕ) (q : ℚ) : ℚ :=
  (roundHalfEven (q * 10 ^ d) : ℚ) / 10 ^ d

/-- The `results` object of a success envelope:
`{'text': text, 'logits': logits}` (`main.py` lines 90-93). -/
structure SuccessResults where
  text : List String
  logits : List ℚ
deriving Repr

/-- The two response envelope shapes of §3/§6: the success envelope
`{error: false, results: ...}` or the error envelope
`{error: true, message: ...}`.  No other shape exists. -/
inductive ResponseBody where
  | success (results : SuccessResults)
  | failure (message : String)
deriving Repr

/-- The `error` flag carried by an envelope. -/
def ResponseBody.errorFlag : ResponseBody → Bool
  | .success _ => false
  | .failure _ => true

/-- An HTTP response: status code plus envelope body. -/
structure HttpResponse where
  status : ℕ
  body : ResponseBody
deriving Repr

/-- A message describing a validation violation. -/
def describeValidationError : ValidationError → String
  | .missingField n => "field required: " ++ n
  | .typeMismatch n => "type error: " ++ n

/-- A message describing an uncaught handler failure. -/
def describeServerError : ServerError → String
  | .attributeError n => "AttributeError: " ++ n
  | .runtimeFailure m => m

/-- Modelled from the spec: `exception_handler.py` is not among the
sources.  Per §4.6, a request-validation failure is reshaped into the
error envelope with HTTP status 422 (registered in `main.py` line 43). -/
def validation_exception_handler (e : ValidationError) : HttpResponse :=
  { status := 422, body := .failure (describeValidationError e) }

/-- Modelled from the spec: `exception_handler.py` is not among the
sources.  Per §4.6, any other uncaught failure during request handling is
reshaped into the error envelope with HTTP status 500 (registered in
`main.py` line 44). -/
def python_exception_handler (e : ServerError) : HttpResponse :=
  { status := 500, body := .failure (describeServerError e) }

/-- A record of one invocation of the inference function `predict`. -/
structure PredictCall where
  prompts : List String
  params : List (String × JsonValue)
deriving Repr

/-- The route handler `do_predict` (`main.py` lines 66-98) on an already
validated body: reads `app.package` (raising if the attribute is absent),
calls `predict(app.package, [prompt], generation_params)`, rounds the
scores with `np.around(..., decimals = CONFIG['ROUND_DIGIT'])` and builds
the success dictionary.  The second component records the calls made to
`predict`. -/
def do_predict (cfg : Config) (runtime : Runtime) (st : AppState)
    (body : InferenceInput) :
    Except ServerError SuccessResults × List PredictCall :=
  match st.package with
  | none => (.error (.attributeError "package"), [])
  | some pkg =>
    match runtime pkg [body.prompt] body.generation_params with
    | .failure msg =>
      (.error (.runtimeFailure msg), [⟨[body.prompt], body.generation_params⟩])
    | .ok texts scores =>
      (.ok { text := texts,
             logits := scores.map (npAround cfg.ROUND_DIGIT) },
       [⟨[body.prompt], body.generation_params⟩])

/-- The outcome of dispatching one `POST /generate` request: the HTTP
response, the application state afterwards, and the list of calls made to
the inference function while handling it. -/
structure GenOutcome where
  response : HttpResponse
  newState : AppState
  predictCalls : List PredictCall
deriving Repr

/-- Dispatch of one `POST /generate` request: schema validation runs
first; a validation failure goes to `validation_exception_handler`, an
uncaught failure inside `do_predict` goes to `python_exception_handler`
(`main.py` lines 43-44), and a normal return is serialised with HTTP
status 200.  `do_predict` contains no assignment to `app.package`, so the
state after the request is the state before it. -/
def handleGenerate (cfg : Config) (runtime : Runtime) (st : AppState)
    (raw : RawRequest) : GenOutcome :=
  match validateInferenceInput raw with
  | .error e =>
    { response := validation_exception_handler e, newState := st, predictCalls := [] }
  | .ok body =>
    match do_predict cfg runtime st body with
    | (.error e, calls) =>
      { response := python_exception_handler e, newState := st, predictCalls := calls }
    | (.ok results, calls) =>
      { response := { status := 200, body := .success results },
        newState := st, predictCalls := calls }

/-- Serve a sequence of `POST /generate` requests in order, threading the
process-wide application state. -/
def serveRequests (cfg : Config) (runtime : Runtime) (st : AppState) :
    List RawRequest → List HttpResponse × AppState
  | [] => ([], st)
  | r :: rs =>
    let g := handleGenerate cfg runtime st r
    let rest := serveRequests cfg runtime g.newState rs
    (g.response :: rest.1, rest.2)

/-- The startup hook `startup_event` (`main.py` lines 47-63): calls
`init_causallm(CONFIG["MODEL_NAME_OR_PATH"])` and stores the resulting
pair in `app.package`.  The hook contains no exception handling, so a
loader failure propagates.  `build.py` (`init_causallm`) is not among the
sources; per §4.2 the loader either produces an initialized pair or
fails, so it is a parameter of this type. -/
def startup_event (cfg : Config) (loader : String → Except String Package)
    (st : AppState) : Except String AppState :=
  match loader cfg.MODEL_NAME_OR_PATH with
  | .error e => .error e
  | .ok pkg => .ok { st with package := some pkg }

/-- Modelled from the spec: mounting `StaticFiles(directory := "static/")`
(`main.py` line 40) happens at module import time, and the external
collaborator's fixed contract is that construction fails when the
directory does not exist.  `moduleInit` builds the application object:
it fails if the static directory is absent, otherwise yields the initial
state with no `package` attribute. -/
def moduleInit (staticDirExists : Bool) : Except String AppState :=
  if staticDirExists then .ok appStateInit
  else .error "RuntimeError: directory static does not exist"

/-- Ways the process can fail before serving any request. -/
inductive StartupFailure where
  | staticDirMissing (msg : String)
  | loadFailure (msg : String)
deriving Repr, DecidableEq

/-- The whole process lifecycle: module import (mounting the static
directory), then the startup hook (model load into `app.package`), then —
only if both succeeded — serving the incoming `generate` requests.  A
failure at either earlier stage aborts: no request is ever served. -/
def bootServer (cfg : Config) (staticDirExists : Bool)
    (loader : String → Except String Package) (runtime : Runtime)
    (reqs : List RawRequest) :
    Except StartupFailure (List HttpResponse × AppState) :=
  match moduleInit staticDirExists with
  | .error e => .error (.staticDirMissing e)
  | .ok st0 =>
    match startup_event cfg loader st0 with
    | .error e => .error (.loadFailure e)
    | .ok st => .ok (serveRequests cfg runtime st reqs)

/-- A well-formed request in the sense of §8: a non-empty string
`prompt` and an object-shaped `generation_params`. -/
def wellFormed (raw : RawRequest) : Bool :=
  (match raw.prompt with
   | some (.str s) => !s.isEmpty
   | _ => false) &&
  (match raw.generation_params with
   | some (.obj _) => true
   | _ => false)

/-- Whether the raw `prompt` field is present and a string — the
condition under which schema validation of `prompt` succeeds. -/
def promptIsString (raw : RawRequest) : Bool :=
  match raw.prompt with
  | some (.str _) => true
  | _ => false

/-- The runtime environment read by `GET /about`: interpreter and
library versions, accelerator state, and the available external commands
(`popen cmd` is the stdout text of `cmd`, `none` when the tool is
unavailable). -/
structure Environment where
  sysVersion : String
  torchVersion : String
  cudaAvailable : Bool
  cudaVersion : Option String
  cudnnVersion : Option ℤ
  cudnnEnabled : Bool
  popen : String → Option String

/-- `os.popen(command).read()` inside `show_about` (`main.py` lines
107-109): returns the command's stdout text; when the command is
unavailable nothing is written to stdout, so the read returns the empty
string rather than raising. -/
def bash (env : Environment) (command : String) : String :=
  (env.popen command).getD ""

/-- A string field that is `None` in Python serialises to JSON null. -/
def optStr : Option String → JsonValue
  | none => .null
  | some s => .str s

/-- An integer field that is `None` in Python serialises to JSON null. -/
def optInt : Option ℤ → JsonValue
  | none => .null
  | some n => .num n

/-- The route handler `show_about` (`main.py` lines 101-119): returns the
diagnostic dictionary, serialised with HTTP status 200.  It reads only
the runtime environment — the application state (and hence whether
`generate` has ever been called) does not appear in its body. -/
def show_about (_st : AppState) (env : Environment) :
    ℕ × List (String × JsonValue) :=
  (200,
   [("sys.version", .str env.sysVersion),
    ("torch.__version__", .str env.torchVersion),
    ("torch.cuda.is_available()", .boolean env.cudaAvailable),
    ("torch.version.cuda", optStr env.cudaVersion),
    ("torch.backends.cudnn.version()", optInt env.cudnnVersion),
    ("torch.backends.cudnn.enabled", .boolean env.cudnnEnabled),
    ("nvidia-smi", .str (bash env "nvidia-smi"))])

/-- Helper: dispatching one `generate` request never changes the
process-wide application state, because `do_predict` contains no
assignment to `app.package`. -/
theorem handleGenerate_newState (cfg : Config) (runtime : Runtime)
    (st : AppState) (raw : RawRequest) :
    (handleGenerate cfg runtime st raw).newState = st := by
  cases hv : validateInferenceInput raw with
  | error e => simp [handleGenerate, hv]
  | ok body =>
    cases hpkg : st.package with
    | none => simp [handleGenerate, do_predict, hv, hpkg]
    | some pkg =>
      cases hr : runtime pkg [body.prompt] body.generation_params with
      | ok texts scores => simp [handleGenerate, do_predict, hv, hpkg, hr]
      | failure msg => simp [handleGenerate, do_predict, hv, hpkg, hr]

/-- Helper: serving any request sequence leaves the process-wide state
exactly as the startup hook left it. -/
theorem serveRequests_state (cfg : Config) (runtime : Runtime)
    (st : AppState) (reqs : List RawRequest) :
    (serveRequests cfg runtime st reqs).2 = st := by
  induction reqs with
  | nil => rfl
  | cons r rs ih =>
    simp only [serveRequests, handleGenerate_newState]
    exact ih

/- Concrete fixtures used by the witnesses below. -/

/-- A concrete configuration with rounding precision 2. -/
def cfgW : Config :=
  { ENV := "dev", DEVICE := "cpu", MODEL_NAME_OR_PATH := "llama", ROUND_DIGIT := 2 }

/-- A concrete loaded (model, tokenizer) pair. -/
def pkgW : Package := { model := 0, tokenizer := 0 }

/-- The state after a successful startup: `app.package` is set. -/
def stReady : AppState := { package := some pkgW }

/-- A well-formed request body. -/
def rawGood : RawRequest :=
  { prompt := some (.str "hi"), generation_params := some (.obj []) }

/-- A well-formed request body whose prompt the mixed runtime fails on. -/
def rawFail : RawRequest :=
  { prompt := some (.str "bad"), generation_params := some (.obj []) }

/-- A request body with the `prompt` field missing. -/
def rawNoPrompt : RawRequest :=
  { prompt := none, generation_params := some (.obj []) }

/-- A runtime stub that always succeeds, returning one generated text and
the raw score 0.123456. -/
def runtimeOkW : Runtime := fun _ _ _ => .ok ["gen"] [123456 / 1000000]

/-- A runtime stub that fails on the prompt "bad" and succeeds on every
other prompt — the faulty stub of §8 used to simulate an inference
failure followed by a working request. -/
def runtimeMixedW : Runtime := fun _ prompts _ =>
  if prompts = ["bad"] then .failure "boom" else .ok ["gen"] [1 / 2]

/-- A concrete runtime environment with no accelerator and no
`nvidia-smi` tool installed. -/
def envNoGpu : Environment :=
  { sysVersion := "3.10", torchVersion := "2.0", cudaAvailable := false,
    cudaVersion := none, cudnnVersion := none, cudnnEnabled := false,
    popen := fun _ => none }

/-- Claim C1: for every well-formed `POST /generate` request (non-empty
string prompt, object-shaped generation_params), the response body is one
of the two envelope shapes and the `error` flag is consistent with the
HTTP status: `error = false` iff status 200, `error = true` iff status
422 or 500. -/
theorem C1_envelope_consistency (cfg : Config) (runtime : Runtime)
    (st : AppState) (raw : RawRequest) (h : wellFormed raw = true) :
    let resp := (handleGenerate cfg runtime st raw).response
    (resp.body.errorFlag = false ↔ resp.status = 200) ∧
    (resp.body.errorFlag = true ↔ (resp.status = 422 ∨ resp.status = 500)) := by
  intro resp
  obtain ⟨p, gp⟩ := raw
  cases p with
  | none => simp [wellFormed] at h
  | some v =>
    cases v with
    | str s =>
      cases gp with
      | none => simp [wellFormed] at h
      | some w =>
        cases w with
        | obj fields =>
          show let resp :=
              (handleGenerate cfg runtime ⟨st.package⟩
                ⟨some (.str s), some (.obj fields)⟩).response
            (resp.body.errorFlag = false ↔ resp.status = 200) ∧
            (resp.body.errorFlag = true ↔ (resp.status = 422 ∨ resp.status = 500))
          cases hpkg : st.package with
          | none =>
            simp [handleGenerate, validateInferenceInput, do_predict, hpkg,
              python_exception_handler, ResponseBody.errorFlag]
          | some pkg =>
            cases hr : runtime pkg [s] fields with
            | ok texts scores =>
              simp [handleGenerate, validateInferenceInput, do_predict, hpkg, hr,
                ResponseBody.errorFlag]
            | failure msg =>
              simp [handleGenerate, validateInferenceInput, do_predict, hpkg, hr,
                python_exception_handler, ResponseBody.errorFlag]
        | null => simp [wellFormed] at h
        | boolean b => simp [wellFormed] at h
        | num q => simp [wellFormed] at h
        | str s2 => simp [wellFormed] at h
    | null => simp [wellFormed] at h
    | boolean b => simp [wellFormed] at h
    | num q => simp [wellFormed] at h
    | obj fields => simp [wellFormed] at h

/-- Witness for C1 at a concrete well-formed request. -/
theorem C1_envelope_consistency_witness :
    let resp := (handleGenerate cfgW runtimeOkW stReady rawGood).response
    (resp.body.errorFlag = false ↔ resp.status = 200) ∧
    (resp.body.errorFlag = true ↔ (resp.status = 422 ∨ resp.status = 500)) :=
  C1_envelope_consistency cfgW runtimeOkW stReady rawGood (by decide)

/-- Claim C2: a `POST /generate` request whose `prompt` field is missing
or not a string gets HTTP status 422 with `error: true`, and the
inference function `predict` is never invoked for it. -/
theorem C2_invalid_prompt_rejected (cfg : Config) (runtime : Runtime)
    (st : AppState) (raw : RawRequest) (h : promptIsString raw = false) :
    let g := handleGenerate cfg runtime st raw
    g.response.status = 422 ∧ g.response.body.errorFlag = true ∧
    g.predictCalls = [] := by
  intro g
  obtain ⟨p, gp⟩ := raw
  cases p with
  | none =>
    simp [handleGenerate, validateInferenceInput, validation_exception_handler,
      ResponseBody.errorFlag, g]
  | some v =>
    cases v with
    | str s => simp [promptIsString] at h
    | null =>
      simp [handleGenerate, validateInferenceInput, validation_exception_handler,
        ResponseBody.errorFlag, g]
    | boolean b =>
      simp [handleGenerate, validateInferenceInput, validation_exception_handler,
        ResponseBody.errorFlag, g]
    | num q =>
      simp [handleGenerate, validateInferenceInput, validation_exception_handler,
        ResponseBody.errorFlag, g]
    | obj fields =>
      simp [handleGenerate, validateInferenceInput, validation_exception_handler,
        ResponseBody.errorFlag, g]

/-- Witness for C2 at a concrete request with no `prompt` field. -/
theorem C2_invalid_prompt_rejected_witness :
    let g := handleGenerate cfgW runtimeOkW stReady rawNoPrompt
    g.response.status = 422 ∧ g.response.body.errorFlag = true ∧
    g.predictCalls = [] :=
  C2_invalid_prompt_rejected cfgW runtimeOkW stReady rawNoPrompt (by decide)

/-- Claim C3: when `predict` raises a failure, the response is HTTP 500
with `error: true`, the process-wide state is unchanged, and a subsequent
valid request (on which the runtime succeeds) is served with HTTP 200. -/
theorem C3_runtime_failure_isolated (cfg : Config) (runtime : Runtime)
    (st : AppState) (pkg : Package) (raw₁ raw₂ : RawRequest)
    (b₁ b₂ : InferenceInput) (msg : String)
    (texts : List String) (scores : List ℚ)
    (hst : st.package = some pkg)
    (hv₁ : validateInferenceInput raw₁ = .ok b₁)
    (hr₁ : runtime pkg [b₁.prompt] b₁.generation_params = .failure msg)
    (hv₂ : validateInferenceInput raw₂ = .ok b₂)
    (hr₂ : runtime pkg [b₂.prompt] b₂.generation_params = .ok texts scores) :
    let g₁ := handleGenerate cfg runtime st raw₁
    let g₂ := handleGenerate cfg runtime g₁.newState raw₂
    g₁.response.status = 500 ∧ g₁.response.body.errorFlag = true ∧
    g₁.newState = st ∧
    g₂.response.status = 200 ∧ g₂.response.body.errorFlag = false := by
  intro g₁ g₂
  have hns : g₁.newState = st := handleGenerate_newState cfg runtime st raw₁
  refine ⟨?_, ?_, hns, ?_, ?_⟩
  · simp [g₁, handleGenerate, do_predict, hv₁, hst, hr₁, python_exception_handler]
  · simp [g₁, handleGenerate, do_predict, hv₁, hst, hr₁, python_exception_handler,
      ResponseBody.errorFlag]
  · simp [g₂, hns, handleGenerate, do_predict, hv₂, hst, hr₂]
  · simp [g₂, hns, handleGenerate, do_predict, hv₂, hst, hr₂, ResponseBody.errorFlag]

/-- Witness for C3 with the mixed runtime stub: it fails on `rawFail`
and succeeds on `rawGood`. -/
theorem C3_runtime_failure_isolated_witness :
    let g₁ := handleGenerate cfgW runtimeMixedW stReady rawFail
    let g₂ := handleGenerate cfgW runtimeMixedW g₁.newState rawGood
    g₁.response.status = 500 ∧ g₁.response.body.errorFlag = true ∧
    g₁.newState = stReady ∧
    g₂.response.status = 200 ∧ g₂.response.body.errorFlag = false :=
  C3_runtime_failure_isolated cfgW runtimeMixedW stReady pkgW rawFail rawGood
    ⟨"bad", []⟩ ⟨"hi", []⟩ "boom" ["gen"] [1 / 2]
    rfl rfl (by simp [runtimeMixedW]) rfl (by simp [runtimeMixedW])

/-- Claim C4: every successful response carries, for each raw score the
runtime produced, exactly `np.around(score, decimals := ROUND_DIGIT)` —
rounding to the configured number of decimal digits. -/
theorem C4_logits_rounded (cfg : Config) (runtime : Runtime)
    (st : AppState) (raw : RawRequest) (body : InferenceInput)
    (pkg : Package) (texts : List String) (scores : List ℚ)
    (hv : validateInferenceInput raw = .ok body)
    (hst : st.package = some pkg)
    (hr : runtime pkg [body.prompt] body.generation_params = .ok texts scores) :
    (handleGenerate cfg runtime st raw).response =
      { status := 200,
        body := .success
          { text := texts, logits := scores.map (npAround cfg.ROUND_DIGIT) } } := by
  simp [handleGenerate, do_predict, hv, hst, hr]

/-- Witness for C4: with precision 2 the raw score 0.123456 comes back
as 0.12. -/
theorem C4_logits_rounded_witness :
    (handleGenerate cfgW runtimeOkW stReady rawGood).response =
      { status := 200,
        body := .success { text := ["gen"], logits := [12 / 100] } } := by
  have h := C4_logits_rounded cfgW runtimeOkW stReady rawGood ⟨"hi", []⟩ pkgW
    ["gen"] [123456 / 1000000] rfl rfl rfl
  have hr : npAround cfgW.ROUND_DIGIT (123456 / 1000000 : ℚ) = 12 / 100 := by
    norm_num [cfgW, npAround, roundHalfEven]
  rw [h]
  simp [hr]

/-- Claim C5: a `generate` request handled while `app.package` is still
absent (startup not completed) fails deterministically with a defined
error envelope — HTTP 422 or 500 with `error: true` — and no result is
computed from an uninitialized model pair (`predict` is never called). -/
theorem C5_before_startup_fails (cfg : Config) (runtime : Runtime)
    (st : AppState) (raw : RawRequest) (hst : st.package = none) :
    let g := handleGenerate cfg runtime st raw
    g.response.body.errorFlag = true ∧
    (g.response.status = 422 ∨ g.response.status = 500) ∧
    g.predictCalls = [] := by
  intro g
  cases hv : validateInferenceInput raw with
  | error e =>
    simp [g, handleGenerate, hv, validation_exception_handler, ResponseBody.errorFlag]
  | ok body =>
    simp [g, handleGenerate, do_predict, hv, hst, python_exception_handler,
      ResponseBody.errorFlag]

/-- Witness for C5: a valid request against the pre-startup state. -/
theorem C5_before_startup_fails_witness :
    let g := handleGenerate cfgW runtimeOkW appStateInit rawGood
    g.response.body.errorFlag = true ∧
    (g.response.status = 422 ∨ g.response.status = 500) ∧
    g.predictCalls = [] :=
  C5_before_startup_fails cfgW runtimeOkW appStateInit rawGood rfl

/-- A loader stub that always succeeds with the concrete pair. -/
def loaderOkW : String → Except String Package := fun _ => .ok pkgW

/-- A loader stub that always fails, as with missing checkpoint files. -/
def loaderFailW : String → Except String Package :=
  fun _ => .error "OSError: model files not found"

/-- Claim C6: when the process boots successfully, `app.package` is
written exactly once — by the startup hook, with the loader's pair,
before any request is dispatched — and no request handler ever
reassigns it: the state after serving the whole request sequence is the
state the startup hook produced, and each single dispatch returns its
input state unchanged. -/
theorem C6_package_written_once (cfg : Config) (runtime : Runtime)
    (loader : String → Except String Package) (reqs : List RawRequest)
    (resps : List HttpResponse) (final : AppState)
    (h : bootServer cfg true loader runtime reqs = .ok (resps, final)) :
    ∃ pkg, loader cfg.MODEL_NAME_OR_PATH = .ok pkg ∧
      final = { package := some pkg } ∧
      (∀ st raw, (handleGenerate cfg runtime st raw).newState = st) := by
  cases hld : loader cfg.MODEL_NAME_OR_PATH with
  | error e => simp [bootServer, moduleInit, startup_event, hld] at h
  | ok pkg =>
    refine ⟨pkg, rfl, ?_, fun st raw => handleGenerate_newState cfg runtime st raw⟩
    simp [bootServer, moduleInit, startup_event, hld, appStateInit] at h
    have hstate := serveRequests_state cfg runtime { package := some pkg } reqs
    rw [h] at hstate
    exact hstate ▸ rfl

/-- Witness for C6 on a concrete boot with one request. -/
theorem C6_package_written_once_witness :
    ∃ pkg, loaderOkW cfgW.MODEL_NAME_OR_PATH = .ok pkg ∧
      stReady = { package := some pkg } ∧
      (∀ st raw, (handleGenerate cfgW runtimeOkW st raw).newState = st) :=
  C6_package_written_once cfgW runtimeOkW loaderOkW [rawNoPrompt]
    [{ status := 422, body := .failure "field required: prompt" }] stReady rfl

/-- Claim C7: a failure of the model loader `init_causallm` during the
startup hook propagates (the hook has no exception handling) and aborts
the boot: the process result is that load failure and no `generate`
request is ever served. -/
theorem C7_load_failure_aborts (cfg : Config)
    (loader : String → Except String Package) (runtime : Runtime)
    (reqs : List RawRequest) (e : String)
    (h : loader cfg.MODEL_NAME_OR_PATH = .error e) :
    bootServer cfg true loader runtime reqs = .error (.loadFailure e) := by
  simp [bootServer, moduleInit, startup_event, h]

/-- Witness for C7 with the failing loader stub. -/
theorem C7_load_failure_aborts_witness :
    bootServer cfgW true loaderFailW runtimeOkW [rawGood] =
      .error (.loadFailure "OSError: model files not found") :=
  C7_load_failure_aborts cfgW loaderFailW runtimeOkW [rawGood]
    "OSError: model files not found" rfl

/-- Claim C8: `GET /about` takes no input and returns HTTP 200 with the
diagnostic key/value object — runtime version, accelerator availability
as a boolean reflecting the environment, driver/toolkit versions and the
raw diagnostic-tool text — independently of the application state (hence
of whether `generate` has been called), and deterministically for a
given environment. -/
theorem C8_about_ok (st st' : AppState) (env : Environment) :
    (show_about st env).1 = 200 ∧
    show_about st env = show_about st' env ∧
    (show_about st env).2.map Prod.fst =
      ["sys.version", "torch.__version__", "torch.cuda.is_available()",
       "torch.version.cuda", "torch.backends.cudnn.version()",
       "torch.backends.cudnn.enabled", "nvidia-smi"] ∧
    (show_about st env).2[2]? =
      some ("torch.cuda.is_available()", .boolean env.cudaAvailable) :=
  ⟨rfl, rfl, rfl, rfl⟩

/-- Claim C9: the static directory is mounted at module import time; if
it does not exist, application construction itself fails, so the process
aborts before the startup hook or any request — with any loader, runtime
and request sequence. -/
theorem C9_static_dir_required (cfg : Config)
    (loader : String → Except String Package) (runtime : Runtime)
    (reqs : List RawRequest) :
    moduleInit false = .error "RuntimeError: directory static does not exist" ∧
    bootServer cfg false loader runtime reqs =
      .error (.staticDirMissing "RuntimeError: directory static does not exist") :=
  ⟨rfl, rfl⟩

/-- Claim C10: `GET /about` does not fail when the external diagnostic
tool is unavailable: `os.popen(...).read()` yields the empty string
rather than raising, and the endpoint still returns HTTP 200 with an
empty `nvidia-smi` field. -/
theorem C10_about_tool_absent (st : AppState) (env : Environment)
    (h : env.popen "nvidia-smi" = none) :
    (show_about st env).1 = 200 ∧
    (show_about st env).2[6]? = some ("nvidia-smi", .str "") := by
  refine ⟨rfl, ?_⟩
  simp [show_about, bash, h]

/-- Witness for C10 in the concrete environment without `nvidia-smi`. -/
theorem C10_about_tool_absent_witness :
    (show_about stReady envNoGpu).1 = 200 ∧
    (show_about stReady envNoGpu).2[6]? = some ("nvidia-smi", .str "") :=
  C10_about_tool_absent stReady envNoGpu rfl

end TerrierUtil
